import Mathlib

/-!
Shallow embedding of the data-shaping logic of `src/app.py` (a compliance
dashboard over three tabular datasets), together with theorems checking the
natural-language specification against it.

Conventions of the embedding:
* a pandas DataFrame row becomes a Lean structure; a DataFrame becomes a list
  of rows (in display order);
* boolean rule columns of the repository table are an association list
  `checks : List (String × Bool)` from column name to cell value;
* pandas `Series.mean()` on an empty column yields NaN, and `int(NaN)` raises
  `ValueError`; this is modelled by `Option`: `none` is the fault;
* `numpy`/pandas `.round(0)` rounds half to even, modelled on `ℚ` by
  `roundHalfEven`.
-/

/-- A row of the repository table after the positional rename of
`app.py` line 136: name, type, url, then one boolean cell per rule column
(`true` = rule violated). -/
structure RepoRow where
  repository : String
  repository_type : String
  url : String
  checks : List (String × Bool)
deriving DecidableEq

/-- Value of the rule column named `rule` in a row (pandas column access
`df[rule]`; rows of one DataFrame all carry each column exactly once). -/
def checkVal (row : RepoRow) (rule : String) : Bool :=
  (row.checks.lookup rule).getD false

/-- The rule columns kept after `df_repositories.drop(columns=rules_to_exclude)`
(`app.py` lines 172-179): exactly the columns whose name is selected. -/
def keptChecks (selected_rules : List String) (row : RepoRow) : List (String × Bool) :=
  row.checks.filter (fun c => selected_rules.contains c.1)

/-- The repository-type filter of `app.py` lines 182-183. -/
def filterByType (repository_type : String) (rows : List RepoRow) : List RepoRow :=
  if repository_type = "all" then rows
  else rows.filter (fun r => r.repository_type == repository_type)

/-- Embeds `app.py` lines 187-188: `df.any(axis="columns", bool_only=True)`
over the remaining (selected) boolean rule columns, then negated. -/
def is_compliant (selected_rules : List String) (row : RepoRow) : Bool :=
  !((keptChecks selected_rules row).any (fun c => c.2))

/-- Embeds `app.py` line 191: `df[selected_rules].sum(axis="columns")`,
summing the selected boolean columns with `True = 1`. -/
def rules_broken (selected_rules : List String) (row : RepoRow) : Nat :=
  (selected_rules.map (fun s => if checkVal row s then 1 else 0)).sum

/-- A row of the displayed compliance table after `app.py` line 197 assigns
the labels `[Repository, Repository Type, URL] ++ selected_rules ++
[Is Compliant, Rules Broken]` positionally.  `ruleVals` holds the physical
rule cells, which stay in the DataFrame's column order (the order `drop` left
them in), while the labels written over them are `selected_rules` in
selection order — the two orders need not agree, so a label can sit on
another rule's cell. -/
structure OutRow where
  repository : String
  repository_type : String
  url : String
  ruleVals : List Bool
  is_compliant : Bool
  rules_broken : Nat
deriving DecidableEq

/-- Derivation of the two computed columns for one row (`app.py` lines
187-191).  `ruleVals` is the kept rule cells in DataFrame column order — the
physical columns that line 197 later labels positionally with
`selected_rules`. -/
def processRow (selected_rules : List String) (row : RepoRow) : OutRow :=
  { repository := row.repository
    repository_type := row.repository_type
    url := row.url
    ruleVals := (keptChecks selected_rules row).map Prod.snd
    is_compliant := is_compliant selected_rules row
    rules_broken := rules_broken selected_rules row }

/-- The sort key order of `app.py` line 194:
`sort_values(by=["rules_broken", "repository"], ascending=[False, True])`. -/
def rowLE (a b : OutRow) : Prop :=
  b.rules_broken < a.rules_broken ∨
    (a.rules_broken = b.rules_broken ∧ a.repository ≤ b.repository)

instance : DecidableRel rowLE := fun a b => by
  unfold rowLE; infer_instance

instance : IsTotal OutRow rowLE where
  total a b := by
    unfold rowLE
    rcases Nat.lt_trichotomy a.rules_broken b.rules_broken with h | h | h
    · exact Or.inr (Or.inl h)
    · rcases le_total a.repository b.repository with hs | hs
      · exact Or.inl (Or.inr ⟨h, hs⟩)
      · exact Or.inr (Or.inr ⟨h.symm, hs⟩)
    · exact Or.inl (Or.inl h)

instance : IsRefl OutRow rowLE where
  refl a := Or.inr ⟨rfl, le_refl _⟩

instance : IsTrans OutRow rowLE where
  trans a b c hab hbc := by
    unfold rowLE at *
    rcases hab with h1 | ⟨h1, hs1⟩ <;> rcases hbc with h2 | ⟨h2, hs2⟩
    · exact Or.inl (h2.trans h1)
    · exact Or.inl (h2 ▸ h1)
    · exact Or.inl (h1 ▸ h2)
    · exact Or.inr ⟨h1.trans h2, hs1.trans hs2⟩

/-- Embeds `app.py` line 194 (the embedding uses a stable comparison sort
realizing `sort_values` on the two keys). -/
def sort_values (rows : List OutRow) : List OutRow :=
  List.insertionSort rowLE rows

/-- The displayed compliance table: type filter, derived columns, sort
(`app.py` lines 182-197). -/
def complianceTable (selected_rules : List String) (repository_type : String)
    (rows : List RepoRow) : List OutRow :=
  sort_values ((filterByType repository_type rows).map (processRow selected_rules))

/-- The non-compliant drill-down table of `app.py` line 260:
`df_repositories.loc[df_repositories["Is Compliant"] == 0]` (in pandas,
`False == 0` holds). -/
def noncompliantTable (selected_rules : List String) (repository_type : String)
    (rows : List RepoRow) : List OutRow :=
  (complianceTable selected_rules repository_type rows).filter
    (fun r => r.is_compliant == false)

/-- Embeds `app.py` line 273: `selected_repo[3:-2].loc[selected_repo[3:-2] == 1]`
— the positional slice `[3:-2]` of a displayed row pairs the selection-order
labels written at line 197 with the column-order cell values underneath;
reported are the labels over cells equal to `1` (`True`).  When the selection
order differs from the column order the labels name other rules' cells. -/
def failed_checks (selected_rules : List String) (row : OutRow) : List String :=
  ((selected_rules.zip row.ruleVals).filter (fun c => c.2)).map Prod.fst

/-!  Object Store Client and fail-fast dispatch (`app.py` lines 29-49 and
96-110).  The S3 service is a function from object key to either a parsed
table or a `ClientError` description. -/

/-- A parsed tabular JSON payload; its content is never inspected by the
error-handling logic. -/
abbrev Frame := List (List String)

/-- Embeds `get_table_from_s3` (`app.py` lines 29-49): on `ClientError` it
returns (not raises) the formatted message string; otherwise the parsed
frame.  `Sum.inl` is the `str` branch of the Python `DataFrame | str` union. -/
def get_table_from_s3 (fetch : String → Except String Frame)
    (object_name : String) : Sum String Frame :=
  match fetch object_name with
  | .error e => .inl ("An error occurred when getting " ++ object_name ++ " data: " ++ e)
  | .ok body => .inr body

/-- The three results returned by `load_data`. -/
structure Datasets where
  repositories : Sum String Frame
  secret_scanning : Sum String Frame
  dependabot : Sum String Frame
deriving DecidableEq

/-- Embeds `load_data` (`app.py` lines 51-68): one fetch per dataset. -/
def load_data (fetch : String → Except String Frame) : Datasets :=
  { repositories := get_table_from_s3 fetch "repositories.json"
    secret_scanning := get_table_from_s3 fetch "secret_scanning.json"
    dependabot := get_table_from_s3 fetch "dependabot.json" }

/-- Outcome of the top-level script: either `st.error(msg); st.stop()` (no
view below the stop renders) or the full dashboard over the three frames. -/
inductive RenderOutcome
  | halted (msg : String)
  | rendered (repositories secret_scanning dependabot : Frame)
deriving DecidableEq

/-- Embeds the sentinel checks of `app.py` lines 100-110: each of the three
results is checked for the string sentinel in order, and the first error
halts the script before any view renders. -/
def runDashboard (fetch : String → Except String Frame) : RenderOutcome :=
  match load_data fetch with
  | { repositories := .inl e, .. } => .halted e
  | { repositories := .inr _, secret_scanning := .inl e, .. } => .halted e
  | { repositories := .inr _, secret_scanning := .inr _, dependabot := .inl e } => .halted e
  | { repositories := .inr r, secret_scanning := .inr s, dependabot := .inr d } =>
      .rendered r s d

/-!  Data Loader cache (`app.py` lines 51-52 and 88-96).  Python strings are
embedded as `List Char` so that the slice `[:-1]` is `List.dropLast`. -/

/-- A wall-clock reading as used by `datetime.now().strftime("%Y-%m-%d %H:%M")`. -/
structure DateTime where
  year : Nat
  month : Nat
  day : Nat
  hour : Nat
  minute : Nat
deriving DecidableEq

/-- Two-digit zero-padded field of `strftime` (`%m`, `%d`, `%H`, `%M`). -/
def digits2 (n : Nat) : List Char :=
  (if n < 10 then "0" ++ Nat.repr n else Nat.repr n).data

/-- Embeds `loading_date.strftime("%Y-%m-%d %H:%M")` (`app.py` line 93). -/
def strftimeChars (t : DateTime) : List Char :=
  (Nat.repr t.year).data ++ ('-' :: digits2 t.month) ++ ('-' :: digits2 t.day)
    ++ (' ' :: digits2 t.hour) ++ (':' :: digits2 t.minute)

/-- Embeds `loading_date[:-1] + "0"` (`app.py` line 94): the cache key passed
to `load_data`. -/
def loading_date_key (t : DateTime) : List Char :=
  (strftimeChars t).dropLast ++ ['0']

/-- Modelled from the spec: the minute value rounded to the nearest multiple
of 10 ("the load timestamp rounded to the nearest 10 minutes"). -/
def nearestTenMinutes (m : Nat) : Nat := ((m + 5) / 10) * 10

/-- Modelled from the spec: the formatted timestamp rounded to the nearest
10 minutes (carrying into the hour when the minutes round up to 60). -/
def nearestTenKey (t : DateTime) : List Char :=
  if nearestTenMinutes t.minute = 60 then
    strftimeChars { t with hour := t.hour + 1, minute := 0 }
  else
    strftimeChars { t with minute := nearestTenMinutes t.minute }

/-- State of Streamlit's `@st.cache_data` memoization of `load_data`,
plus a log of the dataset fetches actually performed against the store. -/
structure LoaderState where
  cache : List (List Char × Datasets)
  fetchLog : List String
deriving DecidableEq

/-- Embeds the `@st.cache_data` semantics of `load_data` (`app.py` line 51):
a call whose argument value was seen before returns the stored result and
performs no fetch; otherwise the body runs (three dataset fetches) and the
result is stored under the key. -/
def load_data_cached (fetch : String → Except String Frame) (key : List Char)
    (st : LoaderState) : Datasets × LoaderState :=
  match st.cache.lookup key with
  | some v => (v, st)
  | none =>
      let v := load_data fetch
      (v, { cache := (key, v) :: st.cache,
            fetchLog := st.fetchLog
              ++ ["repositories.json", "secret_scanning.json", "dependabot.json"] })

/-!  Dependabot (dependency alert) view (`app.py` lines 346-437). -/

/-- A row of the dependency-alert table after the positional rename of
`app.py` line 350. -/
structure DepRow where
  repository_name : String
  rtype : String
  dependency : String
  advisory : String
  severity : String
  days_open : Nat
  link : String
deriving DecidableEq

/-- Embeds the filters of `app.py` lines 361-365: severity membership and
minimum days open, then the repository-type filter. -/
def depFilter (severity : List String) (repo_type : String) (minimum_days : Nat)
    (rows : List DepRow) : List DepRow :=
  let rows1 := rows.filter
    (fun r => severity.contains r.severity && minimum_days ≤ r.days_open)
  if repo_type = "all" then rows1
  else rows1.filter (fun r => r.rtype == repo_type)

/-- Embeds the severity-to-weight map of `app.py` line 368
(`.map` gives NaN, here `none`, outside the four keys). -/
def severityWeightMap (s : String) : Option Nat :=
  if s = "critical" then some 4
  else if s = "high" then some 3
  else if s = "medium" then some 2
  else if s = "low" then some 1
  else none

/-- Embeds the weight-to-label map of `app.py` line 374. -/
def groupedSeverityLabel (w : Nat) : Option String :=
  if w = 4 then some "Critical"
  else if w = 3 then some "High"
  else if w = 2 then some "Medium"
  else if w = 1 then some "Low"
  else none

/-- Group keys of `groupby(["Repository Name", "Type"])` (`app.py` line 371);
one key per distinct (name, type) pair (key order does not matter to any
claim, so first-occurrence order stands in for pandas' sorted key order). -/
def depGroupKeys (rows : List DepRow) : List (String × String) :=
  (rows.map (fun r => (r.repository_name, r.rtype))).dedup

/-- The rows of one group. -/
def depGroupRows (rows : List DepRow) (k : String × String) : List DepRow :=
  rows.filter (fun r => r.repository_name == k.1 && r.rtype == k.2)

/-- A row of the grouped dependency table after the rename of
`app.py` line 377. -/
structure DepGroup where
  repository_name : String
  rtype : String
  number_of_alerts : Nat
  severity_weight : Nat
  max_days_open : Nat
  max_severity : Option String
deriving DecidableEq

/-- The aggregation of `app.py` line 371 (`count`, `max`, `max`) plus the
label of line 374 for one group key. -/
def mkDepGroup (rows : List DepRow) (k : String × String) : DepGroup :=
  let g := depGroupRows rows k
  let w := (g.map (fun r => (severityWeightMap r.severity).getD 0)).foldr max 0
  { repository_name := k.1
    rtype := k.2
    number_of_alerts := g.length
    severity_weight := w
    max_days_open := (g.map (fun r => r.days_open)).foldr max 0
    max_severity := groupedSeverityLabel w }

/-- The grouped dependency table (`app.py` lines 371-377). -/
def df_dependabot_grouped (rows : List DepRow) : List DepGroup :=
  (depGroupKeys rows).map (mkDepGroup rows)

/-- Embeds the "Number of Repositories" metric (`app.py` line 404):
`df_dependabot_grouped["Repository Name"].count()`, the number of non-null
entries of that column, i.e. the number of grouped rows. -/
def numberOfRepositoriesMetric (rows : List DepRow) : Nat :=
  (df_dependabot_grouped rows).length

/-!  Means, rounding and summary metrics. -/

/-- Embeds pandas `Series.mean()`: `none` is the NaN produced on an empty
column. -/
def seriesMean (l : List ℚ) : Option ℚ :=
  if l.isEmpty then none else some (l.sum / l.length)

/-- Embeds numpy `.round(0)` on `ℚ`: round half to even. -/
def roundHalfEven (q : ℚ) : ℤ :=
  if q - ⌊q⌋ < 1/2 then ⌊q⌋
  else if 1/2 < q - ⌊q⌋ then ⌊q⌋ + 1
  else if ⌊q⌋ % 2 = 0 then ⌊q⌋ else ⌊q⌋ + 1

/-- Embeds `int(df_repositories["Rules Broken"].mean().round(0))`
(`app.py` line 251); `none` is the `ValueError` that `int(NaN)` raises. -/
def averageRulesBrokenMetric (selected_rules : List String)
    (repository_type : String) (rows : List RepoRow) : Option ℤ :=
  (seriesMean ((complianceTable selected_rules repository_type rows).map
    (fun r => (r.rules_broken : ℚ)))).map roundHalfEven

/-- Embeds `rule_frequency = df_repositories[selected_rules].sum()`
(`app.py` line 253).  This runs after the positional rename of line 197, so
the label at position `i` is `selected_rules[i]` but the summed cells are the
physical column-order values at position `i`: each entry pairs a
selection-order label with the column sum of the cell underneath it, which
belongs to another rule whenever the two orders differ. -/
def rule_frequency (selected_rules : List String) (repository_type : String)
    (rows : List RepoRow) : List (String × Nat) :=
  (List.range selected_rules.length).map
    (fun i => (selected_rules.getD i "",
      (complianceTable selected_rules repository_type rows).countP
        (fun r => r.ruleVals.getD i false)))

/-- Scanning helper of `idxmax`: keeps the current best and replaces it only
on a strictly larger value, so the first maximum wins. -/
def idxmaxAux (best : String × Nat) : List (String × Nat) → String
  | [] => best.1
  | p :: rest => if best.2 < p.2 then idxmaxAux p rest else idxmaxAux best rest

/-- Embeds pandas `Series.idxmax()` (`app.py` line 254): the index label of
the first occurrence of the maximum value. -/
def idxmax : List (String × Nat) → Option String
  | [] => none
  | p :: rest => some (idxmaxAux p rest)

/-- The "Most Common Rule Broken" metric (`app.py` lines 253-254). -/
def mostCommonRuleBroken (selected_rules : List String) (repository_type : String)
    (rows : List RepoRow) : Option String :=
  idxmax (rule_frequency selected_rules repository_type rows)

/-- Embeds `int(df_dependabot_grouped["Max Days Open"].mean().round(0))`
(`app.py` line 402); `none` is the `ValueError` that `int(NaN)` raises. -/
def averageDaysOpenMetric (severity : List String) (repo_type : String)
    (minimum_days : Nat) (rows : List DepRow) : Option ℤ :=
  (seriesMean ((df_dependabot_grouped (depFilter severity repo_type minimum_days rows)).map
    (fun g => (g.max_days_open : ℚ)))).map roundHalfEven

/-!  The two conditional view bodies (`app.py` lines 171-289 and 359-441). -/

/-- The metrics block of `app.py` lines 239-254. -/
structure ComplianceSummary where
  compliant : Nat
  noncompliant : Nat
  average_rules_broken : Option ℤ
  most_common_rule_broken : Option String
deriving DecidableEq

/-- The compliance summary computed from the displayed table. -/
def complianceSummary (selected_rules : List String) (repository_type : String)
    (rows : List RepoRow) : ComplianceSummary :=
  { compliant := (complianceTable selected_rules repository_type rows).countP
      (fun r => r.is_compliant)
    noncompliant := (complianceTable selected_rules repository_type rows).countP
      (fun r => !r.is_compliant)
    average_rules_broken := averageRulesBrokenMetric selected_rules repository_type rows
    most_common_rule_broken := mostCommonRuleBroken selected_rules repository_type rows }

/-- What the repository-analysis tab shows below the selection widgets:
either the charts/metrics/table dashboard, or only a prompt string. -/
inductive RepoAnalysisView
  | prompt (msg : String)
  | dashboard (table : List OutRow) (summary : ComplianceSummary)
deriving DecidableEq

/-- Embeds the branch of `app.py` lines 171 and 288-289. -/
def renderRepositoryAnalysis (selected_rules : List String)
    (repository_type : String) (rows : List RepoRow) : RepoAnalysisView :=
  if selected_rules.length ≠ 0 then
    .dashboard (complianceTable selected_rules repository_type rows)
      (complianceSummary selected_rules repository_type rows)
  else
    .prompt "Please select at least one rule."

/-- The metrics block of `app.py` lines 401-405. -/
structure DependabotSummary where
  total_alerts : Nat
  average_days_open : Option ℤ
  number_of_repositories : Nat
  average_alerts_per_repository : Option ℤ
deriving DecidableEq

/-- The dependency-alert summary computed from the grouped table. -/
def dependabotSummary (severity : List String) (repo_type : String)
    (minimum_days : Nat) (rows : List DepRow) : DependabotSummary :=
  let grouped := df_dependabot_grouped (depFilter severity repo_type minimum_days rows)
  { total_alerts := (grouped.map (fun g => g.number_of_alerts)).sum
    average_days_open := averageDaysOpenMetric severity repo_type minimum_days rows
    number_of_repositories := numberOfRepositoriesMetric
      (depFilter severity repo_type minimum_days rows)
    average_alerts_per_repository :=
      (seriesMean (grouped.map (fun g => (g.number_of_alerts : ℚ)))).map roundHalfEven }

/-- What the dependabot section shows below the selection widgets. -/
inductive DependabotView
  | prompt (msg : String)
  | dashboard (grouped : List DepGroup) (summary : DependabotSummary)
deriving DecidableEq

/-- Embeds the branch of `app.py` lines 359 and 440-441. -/
def renderDependabotAnalysis (severity : List String) (repo_type : String)
    (minimum_days : Nat) (rows : List DepRow) : DependabotView :=
  if 0 < severity.length then
    .dashboard (df_dependabot_grouped (depFilter severity repo_type minimum_days rows))
      (dependabotSummary severity repo_type minimum_days rows)
  else
    .prompt "Please select at least one severity level."

/-!  Comparison definitions written from the spec wording (used only on the
right-hand side of refinement statements). -/

/-- The four severity labels, lowest to highest. -/
def sevNames : List String := ["low", "medium", "high", "critical"]

/-- Modelled from the spec: the position of a label in the severity order
low < medium < high < critical. -/
def sevRank (s : String) : Nat :=
  if s = "critical" then 3
  else if s = "high" then 2
  else if s = "medium" then 1
  else 0

/-- Modelled from the spec: the display label of a severity level (the
capitalized form used by the grouped table). -/
def severityTitle (s : String) : String :=
  if s = "critical" then "Critical"
  else if s = "high" then "High"
  else if s = "medium" then "Medium"
  else if s = "low" then "Low"
  else s

/-!  Helper lemmas. -/

/-- In an association list with no duplicate keys, `lookup` finds every
stored pair. -/
theorem lookup_eq_some_of_mem {l : List (String × Bool)} {a : String} {b : Bool}
    (hnd : (l.map Prod.fst).Nodup) (h : (a, b) ∈ l) : l.lookup a = some b := by
  induction l with
  | nil => simp at h
  | cons c l ih =>
    obtain ⟨c1, c2⟩ := c
    simp only [List.map_cons, List.nodup_cons, List.mem_map] at hnd
    rcases List.mem_cons.mp h with hc | hmem
    · obtain ⟨rfl, rfl⟩ := Prod.mk.injEq .. ▸ hc
      simp [List.lookup]
    · have hne : (a == c1) = false := by
        apply beq_eq_false_iff_ne.mpr
        rintro rfl
        exact hnd.1 ⟨(a, b), hmem, rfl⟩
      simp only [List.lookup, hne]
      exact ih hnd.2 hmem

/-- Whatever `lookup` returns is stored in the association list. -/
theorem mem_of_lookup_eq_some {l : List (String × Bool)} {a : String} {b : Bool}
    (h : l.lookup a = some b) : (a, b) ∈ l := by
  induction l with
  | nil => simp [List.lookup] at h
  | cons c l ih =>
    obtain ⟨c1, c2⟩ := c
    cases hac : (a == c1) with
    | false =>
      simp only [List.lookup, hac] at h
      exact List.mem_cons_of_mem _ (ih h)
    | true =>
      simp only [List.lookup, hac] at h
      obtain rfl : c2 = b := by injection h
      obtain rfl : a = c1 := by simpa using hac
      exact List.mem_cons_self _ _

/-- The boolean column sum is the count of true selected columns. -/
theorem rules_broken_eq_countP (selected_rules : List String) (row : RepoRow) :
    rules_broken selected_rules row = selected_rules.countP (fun s => checkVal row s) := by
  induction selected_rules with
  | nil => rfl
  | cons s S ih =>
    by_cases h : checkVal row s <;>
      simp [rules_broken, List.countP_cons, h, List.sum_cons] at ih ⊢ <;> omega

/-!  C1. -/

/-- C1: for every non-empty rule selection and every row of the repository
table surviving the repository-type filter, the derived `is_compliant` value
is true iff none of the selected rule columns is true for that row. -/
theorem C1_is_compliant_iff_no_selected_rule_true
    (selected_rules : List String) (hS : selected_rules ≠ [])
    (repository_type : String) (rows : List RepoRow) (row : RepoRow)
    (hrow : row ∈ filterByType repository_type rows) :
    is_compliant selected_rules row = true ↔
      ∀ c ∈ row.checks, c.1 ∈ selected_rules → c.2 = false := by
  simp only [is_compliant, keptChecks, Bool.not_eq_true', List.any_eq_false,
    List.mem_filter, Bool.and_eq_true]
  constructor
  · intro h c hc hsel
    simpa using h c ⟨hc, by simpa using hsel⟩
  · intro h c hc
    simpa using h c hc.1 (by simpa using hc.2)

/-- Witness for C1 at a concrete selection, table and row. -/
theorem C1_witness :
    (["rule1", "rule2"] : List String) ≠ [] ∧
    ({ repository := "a", repository_type := "public", url := "u",
       checks := [("rule1", false), ("rule2", false)] } : RepoRow) ∈
      filterByType "all"
        [{ repository := "a", repository_type := "public", url := "u",
           checks := [("rule1", false), ("rule2", false)] }] ∧
    (is_compliant ["rule1", "rule2"]
        { repository := "a", repository_type := "public", url := "u",
          checks := [("rule1", false), ("rule2", false)] } = true ↔
      ∀ c ∈ ({ repository := "a", repository_type := "public", url := "u",
               checks := [("rule1", false), ("rule2", false)] } : RepoRow).checks,
        c.1 ∈ (["rule1", "rule2"] : List String) → c.2 = false) :=
  ⟨by decide, by decide,
    C1_is_compliant_iff_no_selected_rule_true ["rule1", "rule2"] (by decide) "all"
      [{ repository := "a", repository_type := "public", url := "u",
         checks := [("rule1", false), ("rule2", false)] }] _ (by decide)⟩

/-!  C6. -/

/-- C6: with an empty rule selection the repository-analysis tab renders only
the prompt "Please select at least one rule." (no charts or metrics), and with
an empty severity selection the dependency-alert section renders only the
prompt to pick at least one severity level. -/
theorem C6_empty_selection_prompts :
    ∀ (repository_type : String) (rows : List RepoRow) (repo_type : String)
      (minimum_days : Nat) (drows : List DepRow),
      renderRepositoryAnalysis [] repository_type rows =
        .prompt "Please select at least one rule." ∧
      renderDependabotAnalysis [] repo_type minimum_days drows =
        .prompt "Please select at least one severity level." := by
  intro repository_type rows repo_type minimum_days drows
  constructor
  · simp [renderRepositoryAnalysis]
  · simp [renderDependabotAnalysis]

/-!  C8. -/

/-- C8 counterexample: a filtered dependency-alert table in which one
repository name occurs with two repository types; the "Number of
Repositories" metric reports 2 although only 1 distinct repository name is
present. -/
theorem C8_counterexample :
    numberOfRepositoriesMetric
        (depFilter ["critical", "high", "medium", "low"] "all" 0
          [ { repository_name := "x", rtype := "public", dependency := "d",
              advisory := "a", severity := "low", days_open := 0, link := "l" },
            { repository_name := "x", rtype := "private", dependency := "d",
              advisory := "a", severity := "low", days_open := 0, link := "l" } ]) = 2 ∧
    (((depFilter ["critical", "high", "medium", "low"] "all" 0
          [ { repository_name := "x", rtype := "public", dependency := "d",
              advisory := "a", severity := "low", days_open := 0, link := "l" },
            { repository_name := "x", rtype := "private", dependency := "d",
              advisory := "a", severity := "low", days_open := 0, link := "l" } ]).map
        (fun r => r.repository_name)).dedup).length = 1 := by
  constructor
  · decide
  · decide

/-- C8 amended: for every input table and filter combination, the "Number of
Repositories" metric equals the number of distinct (repository name,
repository type) pairs among the filtered dependency-alert rows. -/
theorem C8_number_of_repositories_distinct_pairs :
    ∀ (severity : List String) (repo_type : String) (minimum_days : Nat)
      (rows : List DepRow),
      numberOfRepositoriesMetric (depFilter severity repo_type minimum_days rows) =
        (((depFilter severity repo_type minimum_days rows).map
          (fun r => (r.repository_name, r.rtype))).dedup).length := by
  intro severity repo_type minimum_days rows
  simp [numberOfRepositoriesMetric, df_dependabot_grouped, depGroupKeys]

/-!  C4. -/

/-- C4: if a dataset fetch fails, `get_table_from_s3` returns an error string
(not an exception) containing the offending key and the failure description;
the run halts surfacing such an error message, and no dashboard — not even a
partial one — renders. -/
theorem C4_fetch_failure_fail_fast
    (fetch : String → Except String Frame) (object_name e : String)
    (hk : object_name ∈ ["repositories.json", "secret_scanning.json", "dependabot.json"])
    (he : fetch object_name = .error e) :
    (∃ a b, get_table_from_s3 fetch object_name = .inl (a ++ object_name ++ b ++ e)) ∧
    (∃ k fe msg, k ∈ ["repositories.json", "secret_scanning.json", "dependabot.json"] ∧
      fetch k = .error fe ∧ get_table_from_s3 fetch k = .inl msg ∧
      runDashboard fetch = .halted msg) ∧
    (∀ r s d, runDashboard fetch ≠ .rendered r s d) := by
  refine ⟨⟨"An error occurred when getting ", " data: ", by simp [get_table_from_s3, he]⟩, ?_⟩
  rcases h1 : fetch "repositories.json" with e1 | f1
  · refine ⟨⟨"repositories.json", e1,
      "An error occurred when getting repositories.json data: " ++ e1, by simp, h1,
      by simp [get_table_from_s3, h1],
      by simp [runDashboard, load_data, get_table_from_s3, h1]⟩, ?_⟩
    intro r s d
    simp [runDashboard, load_data, get_table_from_s3, h1]
  · rcases h2 : fetch "secret_scanning.json" with e2 | f2
    · refine ⟨⟨"secret_scanning.json", e2,
        "An error occurred when getting secret_scanning.json data: " ++ e2, by simp, h2,
        by simp [get_table_from_s3, h2],
        by simp [runDashboard, load_data, get_table_from_s3, h1, h2]⟩, ?_⟩
      intro r s d
      simp [runDashboard, load_data, get_table_from_s3, h1, h2]
    · rcases h3 : fetch "dependabot.json" with e3 | f3
      · refine ⟨⟨"dependabot.json", e3,
          "An error occurred when getting dependabot.json data: " ++ e3, by simp, h3,
          by simp [get_table_from_s3, h3],
          by simp [runDashboard, load_data, get_table_from_s3, h1, h2, h3]⟩, ?_⟩
        intro r s d
        simp [runDashboard, load_data, get_table_from_s3, h1, h2, h3]
      · exfalso
        simp only [List.mem_cons, List.not_mem_nil, or_false] at hk
        rcases hk with rfl | rfl | rfl
        · rw [he] at h1; exact Except.noConfusion h1
        · rw [he] at h2; exact Except.noConfusion h2
        · rw [he] at h3; exact Except.noConfusion h3

/-- Witness for C4 with a store on which every fetch fails. -/
theorem C4_witness :
    ("repositories.json" : String) ∈
      ["repositories.json", "secret_scanning.json", "dependabot.json"] ∧
    (fun _ : String => (Except.error "access denied" : Except String Frame))
      "repositories.json" = .error "access denied" ∧
    ((∃ a b, get_table_from_s3
        (fun _ : String => (Except.error "access denied" : Except String Frame))
        "repositories.json" = .inl (a ++ "repositories.json" ++ b ++ "access denied")) ∧
     (∃ k fe msg, k ∈ ["repositories.json", "secret_scanning.json", "dependabot.json"] ∧
        (fun _ : String => (Except.error "access denied" : Except String Frame)) k
          = .error fe ∧
        get_table_from_s3
          (fun _ : String => (Except.error "access denied" : Except String Frame)) k
          = .inl msg ∧
        runDashboard (fun _ : String => (Except.error "access denied" : Except String Frame))
          = .halted msg) ∧
     (∀ r s d, runDashboard
        (fun _ : String => (Except.error "access denied" : Except String Frame))
          ≠ .rendered r s d)) :=
  ⟨by decide, rfl,
    C4_fetch_failure_fail_fast
      (fun _ : String => (Except.error "access denied" : Except String Frame))
      "repositories.json" "access denied" (by decide) rfl⟩

/-!  C5. -/

/-- Replacing the last character of a two-digit minute field by the digit 0
floors the minute to its 10-minute interval. -/
theorem digits2_dropLast_append_zero :
    ∀ m, m < 60 → (digits2 m).dropLast ++ ['0'] = digits2 (10 * (m / 10)) := by
  decide

/-- A two-digit minute field is never empty. -/
theorem digits2_ne_nil : ∀ m, m < 60 → digits2 m ≠ [] := by
  decide

/-- The cache key computed by `app.py` lines 93-94 is the formatted timestamp
with the minute floored to a multiple of 10. -/
theorem loading_date_key_eq_floor (t : DateTime) (hm : t.minute < 60) :
    loading_date_key t = strftimeChars { t with minute := 10 * (t.minute / 10) } := by
  unfold loading_date_key strftimeChars
  rw [List.dropLast_append_of_ne_nil _ (List.cons_ne_nil _ _),
    List.dropLast_cons_of_ne_nil (digits2_ne_nil _ hm), List.append_assoc,
    List.cons_append, digits2_dropLast_append_zero _ hm]

/-- C5 counterexample: at load time 2026-10-12 12:19 the computed cache key
is 2026-10-12 12:10 (minute digit zeroed, i.e. rounded down), while the
timestamp rounded to the nearest 10 minutes is 2026-10-12 12:20. -/
theorem C5_counterexample :
    loading_date_key { year := 2026, month := 10, day := 12, hour := 12, minute := 19 } =
      ("2026-10-12 12:10").data ∧
    nearestTenKey { year := 2026, month := 10, day := 12, hour := 12, minute := 19 } =
      ("2026-10-12 12:20").data ∧
    loading_date_key { year := 2026, month := 10, day := 12, hour := 12, minute := 19 } ≠
      nearestTenKey { year := 2026, month := 10, day := 12, hour := 12, minute := 19 } :=
  ⟨by decide, by decide, by decide⟩

/-- C5 (amended): the cache key is the load timestamp rounded DOWN to the
start of its 10-minute interval (minute digit zeroed); two load times in the
same bucket yield the same key; a load whose key was already seen returns the
previously computed result with no state change and no additional fetch; a
key not in the cache performs exactly one fresh fetch of each of the three
datasets. -/
theorem C5_floor_bucket_memoization :
    (∀ t : DateTime, t.minute < 60 →
      loading_date_key t = strftimeChars { t with minute := 10 * (t.minute / 10) }) ∧
    (∀ t1 t2 : DateTime, t1.minute < 60 → t2.minute < 60 →
      t1.year = t2.year → t1.month = t2.month → t1.day = t2.day → t1.hour = t2.hour →
      t1.minute / 10 = t2.minute / 10 →
      loading_date_key t1 = loading_date_key t2) ∧
    (∀ (fetch : String → Except String Frame) (key : List Char) (st : LoaderState),
      load_data_cached fetch key (load_data_cached fetch key st).2 =
        load_data_cached fetch key st) ∧
    (∀ (fetch : String → Except String Frame) (key : List Char) (st : LoaderState),
      st.cache.lookup key = none →
      (load_data_cached fetch key st).1 = load_data fetch ∧
      ((load_data_cached fetch key st).2).fetchLog =
        st.fetchLog ++ ["repositories.json", "secret_scanning.json", "dependabot.json"]) := by
  refine ⟨loading_date_key_eq_floor, ?_, ?_, ?_⟩
  · intro t1 t2 h1 h2 hy hmo hd hh hb
    rw [loading_date_key_eq_floor t1 h1, loading_date_key_eq_floor t2 h2]
    cases t1
    cases t2
    simp only at hy hmo hd hh hb
    subst hy hmo hd hh
    simp only [strftimeChars, hb]
  · intro fetch key st
    cases hl : st.cache.lookup key with
    | some v => simp [load_data_cached, hl]
    | none => simp [load_data_cached, hl, List.lookup]
  · intro fetch key st hl
    constructor
    · simp [load_data_cached, hl]
    · simp [load_data_cached, hl]

/-- Witness for C5 at the concrete load time 2026-10-12 12:19 and a concrete
empty cache. -/
theorem C5_witness :
    (19 : Nat) < 60 ∧
    loading_date_key { year := 2026, month := 10, day := 12, hour := 12, minute := 19 } =
      strftimeChars { year := 2026, month := 10, day := 12, hour := 12, minute := 10 * (19 / 10) } ∧
    load_data_cached (fun _ => Except.error "down") ['k']
        (load_data_cached (fun _ => Except.error "down") ['k'] { cache := [], fetchLog := [] }).2 =
      load_data_cached (fun _ => Except.error "down") ['k'] { cache := [], fetchLog := [] } ∧
    ((load_data_cached (fun _ => Except.error "down") ['k']
        { cache := [], fetchLog := [] }).2).fetchLog =
      ([] : List String) ++ ["repositories.json", "secret_scanning.json", "dependabot.json"] :=
  ⟨by decide,
    C5_floor_bucket_memoization.1
      { year := 2026, month := 10, day := 12, hour := 12, minute := 19 } (by decide),
    C5_floor_bucket_memoization.2.2.1 (fun _ => Except.error "down") ['k']
      { cache := [], fetchLog := [] },
    (C5_floor_bucket_memoization.2.2.2 (fun _ => Except.error "down") ['k']
      { cache := [], fetchLog := [] } rfl).2⟩

/-!  C2. -/

/-- A key outside the association list looks up to `none`. -/
theorem lookup_eq_none_of_not_mem_keys {l : List (String × Bool)} {a : String}
    (h : a ∉ l.map Prod.fst) : l.lookup a = none := by
  induction l with
  | nil => rfl
  | cons c l ih =>
    obtain ⟨c1, c2⟩ := c
    simp only [List.map_cons, List.mem_cons] at h
    push_neg at h
    have hb : (a == c1) = false := beq_eq_false_iff_ne.mpr h.1
    simp only [List.lookup, hb]
    exact ih h.2

/-- Counting a disjunction of disjoint predicates splits into a sum. -/
theorem countP_or_disjoint {α : Type} (p q : α → Bool) :
    ∀ l : List α, (∀ a ∈ l, ¬(p a = true ∧ q a = true)) →
      l.countP (fun a => p a || q a) = l.countP p + l.countP q := by
  intro l
  induction l with
  | nil => intro _; rfl
  | cons a l ih =>
    intro h
    have hl := ih (fun b hb => h b (List.mem_cons_of_mem _ hb))
    have ha := h a (List.mem_cons_self _ _)
    by_cases hp : p a = true
    · have hq : q a = false := by
        cases hqv : q a
        · rfl
        · exact absurd ⟨hp, hqv⟩ ha
      simp [List.countP_cons, hp, hq, hl]
      omega
    · have hp' : p a = false := Bool.eq_false_iff.mpr hp
      by_cases hq : q a = true <;>
        [skip; have hq' : q a = false := Bool.eq_false_iff.mpr hq] <;>
        simp_all [List.countP_cons] <;> omega

/-- With unique keys, the number of entries with key `s` and value true is 1
or 0 according to the lookup. -/
theorem countP_key_val {l : List (String × Bool)} (hnd : (l.map Prod.fst).Nodup)
    (s : String) :
    l.countP (fun c => c.2 && (c.1 == s)) = if (l.lookup s).getD false then 1 else 0 := by
  induction l with
  | nil => rfl
  | cons c l ih =>
    obtain ⟨c1, v⟩ := c
    simp only [List.map_cons, List.nodup_cons] at hnd
    by_cases hs : s = c1
    · subst hs
      have hzero : l.countP (fun c => c.2 && (c.1 == s)) = 0 := by
        apply List.countP_eq_zero.mpr
        intro c hc hcp
        have h1 : (c.1 == s) = true := by
          cases hcv : (c.1 == s)
          · rw [hcv] at hcp; simp at hcp
          · rfl
        exact hnd.1 (beq_iff_eq.mp h1 ▸ List.mem_map_of_mem Prod.fst hc)
      simp only [List.countP_cons, hzero, List.lookup, beq_self_eq_true]
      cases v <;> simp
    · have hb : (s == c1) = false := beq_eq_false_iff_ne.mpr hs
      have hb' : (c1 == s) = false := beq_eq_false_iff_ne.mpr (Ne.symm hs)
      simp only [List.countP_cons, List.lookup, hb, hb', Bool.and_false, if_false,
        ih hnd.2]
      simp

/-- With a duplicate-free selection and unique column names, the count of
selected columns whose lookup is true equals the count of true cells among
the kept columns. -/
theorem countP_sel_eq_filter (row : RepoRow) :
    ∀ S : List String, S.Nodup → (row.checks.map Prod.fst).Nodup →
      S.countP (fun s => checkVal row s) =
        (row.checks.filter (fun c => S.contains c.1)).countP (fun c => c.2) := by
  intro S hS hnd
  induction S with
  | nil => simp
  | cons s S' ih =>
    simp only [List.nodup_cons] at hS
    have ih' := ih hS.2
    rw [List.countP_filter] at ih'
    rw [List.countP_cons, List.countP_filter]
    have hsplit : row.checks.countP (fun c => c.2 && (s :: S').contains c.1) =
        row.checks.countP (fun c => (c.2 && (c.1 == s)) || (c.2 && S'.contains c.1)) := by
      apply List.countP_congr
      intro c _
      rw [List.contains_cons, Bool.and_or_distrib_left]
    rw [hsplit, countP_or_disjoint _ _ _ ?_, countP_key_val hnd s, ih']
    · simp only [checkVal]
      omega
    · intro c _ hcc
      have h1 : c.1 = s := by
        have := hcc.1
        cases hcv : (c.1 == s)
        · rw [hcv] at this; simp at this
        · exact beq_iff_eq.mp hcv
      have h2 : c.1 ∈ S' := by
        have := hcc.2
        cases hcv : S'.contains c.1
        · rw [hcv] at this; simp at this
        · simpa using hcv
      exact hS.1 (h1 ▸ h2)

/-- C2: `rules_broken` counts the selected columns that are true for the row;
the displayed table is sorted by `rules_broken` descending with ties by
repository name ascending; the sort is a permutation of the computed rows and
is stable (rows tied on both sort keys keep their input order). -/
theorem C2_rules_broken_count_and_stable_sort
    (selected_rules : List String) (repository_type : String) (rows : List RepoRow) :
    (∀ row ∈ filterByType repository_type rows, selected_rules.Nodup →
      (row.checks.map Prod.fst).Nodup →
      rules_broken selected_rules row =
        (row.checks.filter (fun c => selected_rules.contains c.1)).countP
          (fun c => c.2)) ∧
    (complianceTable selected_rules repository_type rows).Sorted
      (fun a b => b.rules_broken < a.rules_broken ∨
        (a.rules_broken = b.rules_broken ∧ a.repository ≤ b.repository)) ∧
    (complianceTable selected_rules repository_type rows).Perm
      ((filterByType repository_type rows).map (processRow selected_rules)) ∧
    (∀ (k : Nat) (n : String),
      (complianceTable selected_rules repository_type rows).filter
        (fun r => r.rules_broken == k && r.repository == n) =
      ((filterByType repository_type rows).map (processRow selected_rules)).filter
        (fun r => r.rules_broken == k && r.repository == n)) := by
  refine ⟨?_, ?_, ?_, ?_⟩
  · intro row _ hS hnd
    rw [rules_broken_eq_countP]
    exact countP_sel_eq_filter row selected_rules hS hnd
  · exact List.sorted_insertionSort rowLE _
  · exact List.perm_insertionSort rowLE _
  · intro k n
    set l := (filterByType repository_type rows).map (processRow selected_rules) with hl
    set p := fun r : OutRow => r.rules_broken == k && r.repository == n with hp
    have hmemp : ∀ r : OutRow, p r = true → r.rules_broken = k ∧ r.repository = n := by
      intro r hr
      rw [hp] at hr
      simp only [Bool.and_eq_true, beq_iff_eq] at hr
      exact hr
    have hsub : (l.filter p).Sublist (List.insertionSort rowLE l) := by
      apply List.sublist_insertionSort
      · apply List.pairwise_of_forall_mem_list
        intro a ha b hb
        obtain ⟨hak, han⟩ := hmemp a (List.mem_filter.mp ha).2
        obtain ⟨hbk, hbn⟩ := hmemp b (List.mem_filter.mp hb).2
        exact Or.inr ⟨hak.trans hbk.symm, le_of_eq (han.trans hbn.symm)⟩
      · exact List.filter_sublist l
    have hsub2 : (l.filter p).Sublist ((List.insertionSort rowLE l).filter p) := by
      have h2 : (l.filter p).filter p = l.filter p :=
        List.filter_eq_self.mpr (fun a ha => (List.mem_filter.mp ha).2)
      have h3 := hsub.filter p
      rwa [h2] at h3
    have hperm : ((List.insertionSort rowLE l).filter p).Perm (l.filter p) :=
      (List.perm_insertionSort rowLE l).filter p
    exact (hsub2.eq_of_length hperm.length_eq.symm).symm

/-- Witness for C2 at a concrete selection and table. -/
theorem C2_witness :
    (({ repository := "a", repository_type := "public", url := "u",
        checks := [("rule1", true), ("rule2", false)] } : RepoRow) ∈
      filterByType "all"
        [{ repository := "a", repository_type := "public", url := "u",
           checks := [("rule1", true), ("rule2", false)] }]) ∧
    (["rule1", "rule2"] : List String).Nodup ∧
    ((({ repository := "a", repository_type := "public", url := "u",
         checks := [("rule1", true), ("rule2", false)] } : RepoRow).checks.map
        Prod.fst).Nodup) ∧
    rules_broken ["rule1", "rule2"]
        { repository := "a", repository_type := "public", url := "u",
          checks := [("rule1", true), ("rule2", false)] } =
      (({ repository := "a", repository_type := "public", url := "u",
          checks := [("rule1", true), ("rule2", false)] } : RepoRow).checks.filter
        (fun c => (["rule1", "rule2"] : List String).contains c.1)).countP
        (fun c => c.2) ∧
    (complianceTable ["rule1", "rule2"] "all"
        [{ repository := "a", repository_type := "public", url := "u",
           checks := [("rule1", true), ("rule2", false)] }]).Sorted
      (fun a b => b.rules_broken < a.rules_broken ∨
        (a.rules_broken = b.rules_broken ∧ a.repository ≤ b.repository)) ∧
    (complianceTable ["rule1", "rule2"] "all"
        [{ repository := "a", repository_type := "public", url := "u",
           checks := [("rule1", true), ("rule2", false)] }]).Perm
      ((filterByType "all"
        [{ repository := "a", repository_type := "public", url := "u",
           checks := [("rule1", true), ("rule2", false)] }]).map
        (processRow ["rule1", "rule2"])) ∧
    (complianceTable ["rule1", "rule2"] "all"
        [{ repository := "a", repository_type := "public", url := "u",
           checks := [("rule1", true), ("rule2", false)] }]).filter
      (fun r => r.rules_broken == 1 && r.repository == "a") =
    ((filterByType "all"
        [{ repository := "a", repository_type := "public", url := "u",
           checks := [("rule1", true), ("rule2", false)] }]).map
      (processRow ["rule1", "rule2"])).filter
      (fun r => r.rules_broken == 1 && r.repository == "a") :=
  ⟨by decide, by decide, by decide,
    (C2_rules_broken_count_and_stable_sort ["rule1", "rule2"] "all"
      [{ repository := "a", repository_type := "public", url := "u",
         checks := [("rule1", true), ("rule2", false)] }]).1 _ (by decide) (by decide)
      (by decide),
    (C2_rules_broken_count_and_stable_sort ["rule1", "rule2"] "all"
      [{ repository := "a", repository_type := "public", url := "u",
         checks := [("rule1", true), ("rule2", false)] }]).2.1,
    (C2_rules_broken_count_and_stable_sort ["rule1", "rule2"] "all"
      [{ repository := "a", repository_type := "public", url := "u",
         checks := [("rule1", true), ("rule2", false)] }]).2.2.1,
    (C2_rules_broken_count_and_stable_sort ["rule1", "rule2"] "all"
      [{ repository := "a", repository_type := "public", url := "u",
         checks := [("rule1", true), ("rule2", false)] }]).2.2.2 1 "a"⟩

/-!  C10. -/

/-- The mean of an empty column is NaN (`none`). -/
theorem seriesMean_eq_none_iff (l : List ℚ) : seriesMean l = none ↔ l = [] := by
  unfold seriesMean
  split <;> simp_all [List.isEmpty_iff]

/-- A grouped dependency table is empty exactly when its input is. -/
theorem df_dependabot_grouped_eq_nil_iff (rows : List DepRow) :
    df_dependabot_grouped rows = [] ↔ rows = [] := by
  simp [df_dependabot_grouped, depGroupKeys]

/-- C10: when the active filters leave zero rows, each average metric is the
integer conversion of an empty-column mean (NaN), which faults — modelled by
`none`; the metrics are defined exactly when at least one row survives
filtering. -/
theorem C10_empty_filter_average_faults
    (selected_rules : List String) (hS : selected_rules ≠ [])
    (repository_type : String) (rows : List RepoRow)
    (severity : List String) (repo_type : String) (minimum_days : Nat)
    (drows : List DepRow) :
    (averageRulesBrokenMetric selected_rules repository_type rows = none ↔
      filterByType repository_type rows = []) ∧
    (averageDaysOpenMetric severity repo_type minimum_days drows = none ↔
      depFilter severity repo_type minimum_days drows = []) ∧
    ((dependabotSummary severity repo_type minimum_days drows).average_alerts_per_repository
        = none ↔ depFilter severity repo_type minimum_days drows = []) := by
  have hlen : (complianceTable selected_rules repository_type rows).length =
      (filterByType repository_type rows).length := by
    simp [complianceTable, sort_values, List.length_insertionSort]
  refine ⟨?_, ?_, ?_⟩
  · rw [averageRulesBrokenMetric, Option.map_eq_none', seriesMean_eq_none_iff,
      List.map_eq_nil]
    constructor
    · intro h
      have := congrArg List.length h
      rw [hlen] at this
      exact List.length_eq_zero.mp this
    · intro h
      apply List.length_eq_zero.mp
      rw [hlen, h]
      rfl
  · rw [averageDaysOpenMetric, Option.map_eq_none', seriesMean_eq_none_iff,
      List.map_eq_nil, df_dependabot_grouped_eq_nil_iff]
  · rw [dependabotSummary]
    simp only
    rw [Option.map_eq_none', seriesMean_eq_none_iff, List.map_eq_nil,
      df_dependabot_grouped_eq_nil_iff]

/-- Witness for C10: a repository-type filter matching nothing and a severity
filter eliminating every alert. -/
theorem C10_witness :
    (["rule1"] : List String) ≠ [] ∧
    (averageRulesBrokenMetric ["rule1"] "private"
        [{ repository := "a", repository_type := "public", url := "u",
           checks := [("rule1", true)] }] = none ↔
      filterByType "private"
        [{ repository := "a", repository_type := "public", url := "u",
           checks := [("rule1", true)] }] = []) ∧
    (averageDaysOpenMetric ["critical"] "all" 0
        [{ repository_name := "x", rtype := "public", dependency := "d",
           advisory := "a", severity := "low", days_open := 3, link := "l" }] = none ↔
      depFilter ["critical"] "all" 0
        [{ repository_name := "x", rtype := "public", dependency := "d",
           advisory := "a", severity := "low", days_open := 3, link := "l" }] = []) :=
  ⟨by decide,
    (C10_empty_filter_average_faults ["rule1"] (by decide) "private"
      [{ repository := "a", repository_type := "public", url := "u",
         checks := [("rule1", true)] }] ["critical"] "all" 0
      [{ repository_name := "x", rtype := "public", dependency := "d",
         advisory := "a", severity := "low", days_open := 3, link := "l" }]).1,
    (C10_empty_filter_average_faults ["rule1"] (by decide) "private"
      [{ repository := "a", repository_type := "public", url := "u",
         checks := [("rule1", true)] }] ["critical"] "all" 0
      [{ repository_name := "x", rtype := "public", dependency := "d",
         advisory := "a", severity := "low", days_open := 3, link := "l" }]).2.1⟩

/-!  C3. -/

/-- A fold by `max` over a non-empty list of naturals is attained and bounds
the list. -/
theorem foldr_max_mem :
    ∀ l : List Nat, l ≠ [] → l.foldr max 0 ∈ l ∧ ∀ x ∈ l, x ≤ l.foldr max 0 := by
  intro l
  induction l with
  | nil => intro h; exact absurd rfl h
  | cons a L ih =>
    intro _
    simp only [List.foldr_cons]
    rcases Nat.le_total (L.foldr max 0) a with h | h
    · rw [Nat.max_eq_left h]
      refine ⟨List.mem_cons_self _ _, ?_⟩
      intro x hx
      rcases List.mem_cons.mp hx with rfl | hx
      · exact le_refl _
      · cases L with
        | nil => simp at hx
        | cons b L' => exact le_trans ((ih (by simp)).2 x hx) h
    · rw [Nat.max_eq_right h]
      cases L with
      | nil =>
        have ha : a = 0 := Nat.le_zero.mp h
        subst ha
        simp
      | cons b L' =>
        obtain ⟨hmem, hbound⟩ := ih (by simp)
        refine ⟨List.mem_cons_of_mem _ hmem, ?_⟩
        intro x hx
        rcases List.mem_cons.mp hx with rfl | hx
        · exact h
        · exact hbound x hx

/-- Rows surviving the dependency-alert filter carry a selected severity. -/
theorem severity_mem_of_mem_depFilter {severity : List String} {repo_type : String}
    {minimum_days : Nat} {rows : List DepRow} {r : DepRow}
    (h : r ∈ depFilter severity repo_type minimum_days rows) :
    r.severity ∈ severity := by
  have h1 : r ∈ rows.filter
      (fun r => severity.contains r.severity && minimum_days ≤ r.days_open) := by
    by_cases ht : repo_type = "all"
    · simpa [depFilter, ht] using h
    · simp only [depFilter, if_neg ht] at h
      exact (List.mem_filter.mp h).1
  have h2 := (List.mem_filter.mp h1).2
  simp only [Bool.and_eq_true] at h2
  simpa using h2.1

/-- The weight map composed with the label map restores the display label. -/
theorem groupedSeverityLabel_weight :
    ∀ s ∈ sevNames, groupedSeverityLabel ((severityWeightMap s).getD 0) =
      some (severityTitle s) := by
  decide

/-- On the four severity labels, weight order coincides with rank order. -/
theorem sevRank_le_of_weight_le :
    ∀ s ∈ sevNames, ∀ u ∈ sevNames,
      (severityWeightMap u).getD 0 ≤ (severityWeightMap s).getD 0 →
      sevRank u ≤ sevRank s := by
  decide

/-- C3: the severity-to-weight mapping is strictly monotonic in the severity
order critical > high > medium > low, and for every group of filtered
dependency-alert rows keyed by (repository name, repository type) the grouped
max-severity label is the display label of a maximum-rank severity present in
that group. -/
theorem C3_severity_weight_monotone_and_group_max
    (severity : List String) (repo_type : String) (minimum_days : Nat)
    (rows : List DepRow) (k : String × String)
    (hsev : ∀ s ∈ severity, s ∈ sevNames)
    (hk : k ∈ depGroupKeys (depFilter severity repo_type minimum_days rows)) :
    (∀ s ∈ sevNames, ∀ u ∈ sevNames,
      (sevRank s < sevRank u ↔
        (severityWeightMap s).getD 0 < (severityWeightMap u).getD 0)) ∧
    (∃ s, s ∈ (depGroupRows (depFilter severity repo_type minimum_days rows) k).map
        (fun r => r.severity) ∧
      (∀ u ∈ (depGroupRows (depFilter severity repo_type minimum_days rows) k).map
          (fun r => r.severity), sevRank u ≤ sevRank s) ∧
      (mkDepGroup (depFilter severity repo_type minimum_days rows) k).max_severity =
        some (severityTitle s)) := by
  refine ⟨by decide, ?_⟩
  rw [depGroupKeys, List.mem_dedup] at hk
  obtain ⟨r, hr, hpair⟩ := List.mem_map.mp hk
  have hrg : r ∈ depGroupRows (depFilter severity repo_type minimum_days rows) k := by
    rw [depGroupRows]
    apply List.mem_filter.mpr
    refine ⟨hr, ?_⟩
    have h1 : r.repository_name = k.1 := congrArg Prod.fst hpair
    have h2 : r.rtype = k.2 := congrArg Prod.snd hpair
    simp [h1, h2]
  have hW : (depGroupRows (depFilter severity repo_type minimum_days rows) k).map
      (fun r => (severityWeightMap r.severity).getD 0) ≠ [] := by
    intro hnil
    rw [List.map_eq_nil_iff] at hnil
    rw [hnil] at hrg
    exact List.not_mem_nil r hrg
  obtain ⟨hmem, hbound⟩ := foldr_max_mem _ hW
  obtain ⟨r0, hr0g, hr0w⟩ := List.mem_map.mp hmem
  have hsevg : ∀ r' ∈ depGroupRows (depFilter severity repo_type minimum_days rows) k,
      r'.severity ∈ sevNames := by
    intro r' hr'
    rw [depGroupRows] at hr'
    exact hsev _ (severity_mem_of_mem_depFilter (List.mem_filter.mp hr').1)
  refine ⟨r0.severity, List.mem_map_of_mem _ hr0g, ?_, ?_⟩
  · intro u hu
    obtain ⟨r1, hr1g, hr1u⟩ := List.mem_map.mp hu
    have hw1 : (severityWeightMap r1.severity).getD 0 ≤
        ((depGroupRows (depFilter severity repo_type minimum_days rows) k).map
          (fun r => (severityWeightMap r.severity).getD 0)).foldr max 0 :=
      hbound _ (List.mem_map_of_mem _ hr1g)
    rw [← hr0w] at hw1
    exact hr1u ▸ sevRank_le_of_weight_le r0.severity (hsevg _ hr0g) r1.severity
      (hsevg _ hr1g) hw1
  · show groupedSeverityLabel
        (((depGroupRows (depFilter severity repo_type minimum_days rows) k).map
          (fun r => (severityWeightMap r.severity).getD 0)).foldr max 0) =
      some (severityTitle r0.severity)
    rw [← hr0w]
    exact groupedSeverityLabel_weight r0.severity (hsevg _ hr0g)

/-- Witness for C3 on the scenario table with severities critical, low,
critical for repository x. -/
theorem C3_witness :
    (∀ s ∈ (["critical", "low"] : List String), s ∈ sevNames) ∧
    (("x", "public") ∈ depGroupKeys (depFilter ["critical", "low"] "all" 0
      [ { repository_name := "x", rtype := "public", dependency := "d1",
          advisory := "a", severity := "critical", days_open := 3, link := "l" },
        { repository_name := "x", rtype := "public", dependency := "d2",
          advisory := "a", severity := "low", days_open := 1, link := "l" },
        { repository_name := "x", rtype := "public", dependency := "d3",
          advisory := "a", severity := "critical", days_open := 9, link := "l" } ])) ∧
    ((∀ s ∈ sevNames, ∀ u ∈ sevNames,
      (sevRank s < sevRank u ↔
        (severityWeightMap s).getD 0 < (severityWeightMap u).getD 0)) ∧
    (∃ s, s ∈ (depGroupRows (depFilter ["critical", "low"] "all" 0
        [ { repository_name := "x", rtype := "public", dependency := "d1",
            advisory := "a", severity := "critical", days_open := 3, link := "l" },
          { repository_name := "x", rtype := "public", dependency := "d2",
            advisory := "a", severity := "low", days_open := 1, link := "l" },
          { repository_name := "x", rtype := "public", dependency := "d3",
            advisory := "a", severity := "critical", days_open := 9, link := "l" } ])
        ("x", "public")).map (fun r => r.severity) ∧
      (∀ u ∈ (depGroupRows (depFilter ["critical", "low"] "all" 0
        [ { repository_name := "x", rtype := "public", dependency := "d1",
            advisory := "a", severity := "critical", days_open := 3, link := "l" },
          { repository_name := "x", rtype := "public", dependency := "d2",
            advisory := "a", severity := "low", days_open := 1, link := "l" },
          { repository_name := "x", rtype := "public", dependency := "d3",
            advisory := "a", severity := "critical", days_open := 9, link := "l" } ])
          ("x", "public")).map (fun r => r.severity), sevRank u ≤ sevRank s) ∧
      (mkDepGroup (depFilter ["critical", "low"] "all" 0
        [ { repository_name := "x", rtype := "public", dependency := "d1",
            advisory := "a", severity := "critical", days_open := 3, link := "l" },
          { repository_name := "x", rtype := "public", dependency := "d2",
            advisory := "a", severity := "low", days_open := 1, link := "l" },
          { repository_name := "x", rtype := "public", dependency := "d3",
            advisory := "a", severity := "critical", days_open := 9, link := "l" } ])
        ("x", "public")).max_severity = some (severityTitle s))) :=
  ⟨by decide, by decide,
    C3_severity_weight_monotone_and_group_max ["critical", "low"] "all" 0
      [ { repository_name := "x", rtype := "public", dependency := "d1",
          advisory := "a", severity := "critical", days_open := 3, link := "l" },
        { repository_name := "x", rtype := "public", dependency := "d2",
          advisory := "a", severity := "low", days_open := 1, link := "l" },
        { repository_name := "x", rtype := "public", dependency := "d3",
          advisory := "a", severity := "critical", days_open := 9, link := "l" } ]
      ("x", "public") (by decide) (by decide)⟩

/-!  C9. -/

/-- With unique column names, a row is non-compliant exactly when it breaks
at least one selected rule. -/
theorem is_compliant_false_iff_rules_broken_pos {row : RepoRow}
    (hnd : (row.checks.map Prod.fst).Nodup) (selected_rules : List String) :
    is_compliant selected_rules row = false ↔ 1 ≤ rules_broken selected_rules row := by
  rw [rules_broken_eq_countP]
  constructor
  · intro h
    unfold is_compliant keptChecks at h
    simp only [Bool.not_eq_false', List.any_eq_true, List.mem_filter,
      Bool.and_eq_true] at h
    obtain ⟨c, ⟨hc, hsel⟩, hval⟩ := h
    have hcl : (c.1, true) ∈ row.checks := by
      have : c = (c.1, c.2) := rfl
      rw [this, hval] at hc
      exact hc
    have hl : row.checks.lookup c.1 = some true := lookup_eq_some_of_mem hnd hcl
    have hpos : 0 < selected_rules.countP (fun s => checkVal row s) :=
      List.countP_pos.mpr ⟨c.1, by simpa using hsel, by simp [checkVal, hl]⟩
    omega
  · intro h
    obtain ⟨s, hs, hval⟩ := List.countP_pos.mp
      (show 0 < selected_rules.countP (fun s => checkVal row s) by omega)
    have hl : row.checks.lookup s = some true := by
      cases hll : row.checks.lookup s with
      | none => unfold checkVal at hval; rw [hll] at hval; simp at hval
      | some b =>
        cases b
        · unfold checkVal at hval; rw [hll] at hval; simp at hval
        · rfl
    have hmem : (s, true) ∈ row.checks := mem_of_lookup_eq_some hl
    unfold is_compliant keptChecks
    simp only [Bool.not_eq_false', List.any_eq_true, List.mem_filter,
      Bool.and_eq_true]
    exact ⟨(s, true), ⟨hmem, by simpa using hs⟩, rfl⟩

/-- In a list where the true rows of `p` may only precede the false rows,
filtering by `p` keeps a positional prefix. -/
theorem filter_get_of_pairwise {α : Type} (p : α → Bool) :
    ∀ l : List α, l.Pairwise (fun x y => p y = true → p x = true) →
      ∀ i (h : i < (l.filter p).length) (h' : i < l.length),
        (l.filter p).get ⟨i, h⟩ = l.get ⟨i, h'⟩ := by
  intro l
  induction l with
  | nil => intro _ i h h'; simp at h'
  | cons a l ih =>
    intro hpw i h h'
    rw [List.pairwise_cons] at hpw
    by_cases hpa : p a = true
    · rw [List.get_of_eq (List.filter_cons_of_pos hpa) ⟨i, h⟩]
      cases i with
      | zero => rfl
      | succ j =>
        rw [List.get_cons_succ, List.get_cons_succ]
        exact ih hpw.2 j _ _
    · have hnil : (a :: l).filter p = [] := by
        rw [List.filter_cons_of_neg (by simpa using hpa)]
        exact List.filter_eq_nil_iff.mpr
          (fun b hb => by
            cases hpb : p b
            · simp
            · exact absurd (hpw.1 b hb hpb) hpa)
      rw [hnil] at h
      simp at h

/-- Rows surviving the repository-type filter come from the table. -/
theorem mem_of_mem_filterByType {repository_type : String} {rows : List RepoRow}
    {row : RepoRow} (h : row ∈ filterByType repository_type rows) : row ∈ rows := by
  by_cases ht : repository_type = "all"
  · simpa [filterByType, ht] using h
  · rw [filterByType, if_neg ht] at h
    exact (List.mem_filter.mp h).1

/-- Zipping the key and value projections of a pair list restores it. -/
theorem zip_fst_snd {α β : Type} :
    ∀ l : List (α × β), (l.map Prod.fst).zip (l.map Prod.snd) = l := by
  intro l
  induction l with
  | nil => rfl
  | cons c l ih => simp [ih]

/-- With unique column names, a kept column's cell agrees with the lookup by
its own name. -/
theorem checkVal_eq_of_mem_kept {selected_rules : List String} {row : RepoRow}
    (hnd : (row.checks.map Prod.fst).Nodup) {c : String × Bool}
    (hc : c ∈ keptChecks selected_rules row) : checkVal row c.1 = c.2 := by
  have hcc : (c.1, c.2) ∈ row.checks := (List.mem_filter.mp hc).1
  unfold checkVal
  rw [lookup_eq_some_of_mem hnd hcc]
  rfl

/-- Under the same alignment hypothesis, the drill-down slice reports exactly
the violated selected rules. -/
theorem failed_checks_eq_of_aligned {selected_rules : List String} {row : RepoRow}
    (hnd : (row.checks.map Prod.fst).Nodup)
    (halign : (keptChecks selected_rules row).map Prod.fst = selected_rules) :
    failed_checks selected_rules (processRow selected_rules row) =
      selected_rules.filter (fun s => checkVal row s) := by
  have hval : ∀ c ∈ keptChecks selected_rules row, checkVal row c.1 = c.2 :=
    fun c hc => checkVal_eq_of_mem_kept hnd hc
  show (((selected_rules.zip ((keptChecks selected_rules row).map Prod.snd)).filter
      (fun c => c.2)).map Prod.fst) = selected_rules.filter (fun s => checkVal row s)
  generalize hK : keptChecks selected_rules row = K
  rw [hK] at halign hval
  rw [← halign, zip_fst_snd, List.map_filter]
  apply congrArg
  apply List.filter_congr
  intro c hc
  simp only [Function.comp_apply]
  rw [hval c hc]

/-- C9 counterexample: over the columns `[rule1, rule2]` with only `rule1`
violated, the selection order `[rule2, rule1]` makes the positional rename put
the label "rule2" on rule1's cell, so the drill-down names "rule2" — a rule
the repository does not violate — instead of its violated selected rules. -/
theorem C9_counterexample :
    failed_checks ["rule2", "rule1"]
        (processRow ["rule2", "rule1"]
          { repository := "a", repository_type := "public", url := "u",
            checks := [("rule1", true), ("rule2", false)] }) = ["rule2"] ∧
    checkVal { repository := "a", repository_type := "public", url := "u",
               checks := [("rule1", true), ("rule2", false)] } "rule2" = false ∧
    (["rule2", "rule1"] : List String).filter
      (fun s => checkVal { repository := "a", repository_type := "public", url := "u",
                           checks := [("rule1", true), ("rule2", false)] } s) =
      ["rule1"] ∧
    failed_checks ["rule2", "rule1"]
        (processRow ["rule2", "rule1"]
          { repository := "a", repository_type := "public", url := "u",
            checks := [("rule1", true), ("rule2", false)] }) ≠
      (["rule2", "rule1"] : List String).filter
        (fun s => checkVal { repository := "a", repository_type := "public", url := "u",
                             checks := [("rule1", true), ("rule2", false)] } s) := by
  refine ⟨by decide, by decide, by decide, by decide⟩

/-- C9 (amended): in the sorted compliance table every non-compliant row
precedes every compliant one, so the drill-down table (the non-compliant
filter) agrees with the full table position by position; and whenever the
selection lists the kept rule columns in the DataFrame's column order (so the
positional rename of line 197 is label-correct), the failed-checks slice of a
displayed row is exactly the set of selected rules the underlying repository
violates.  When the two orders differ the slice labels other rules' cells
(`C9_counterexample`). -/
theorem C9_noncompliant_positional_drilldown
    (selected_rules : List String) (repository_type : String) (rows : List RepoRow)
    (hnd : ∀ row ∈ rows, (row.checks.map Prod.fst).Nodup) :
    (∀ i j (hi : i < (complianceTable selected_rules repository_type rows).length)
        (hj : j < (complianceTable selected_rules repository_type rows).length),
      i ≤ j →
      ((complianceTable selected_rules repository_type rows).get ⟨j, hj⟩).is_compliant
        = false →
      ((complianceTable selected_rules repository_type rows).get ⟨i, hi⟩).is_compliant
        = false) ∧
    (∀ i (h : i < (noncompliantTable selected_rules repository_type rows).length)
        (h' : i < (complianceTable selected_rules repository_type rows).length),
      (noncompliantTable selected_rules repository_type rows).get ⟨i, h⟩ =
        (complianceTable selected_rules repository_type rows).get ⟨i, h'⟩) ∧
    (∀ row ∈ filterByType repository_type rows,
      (keptChecks selected_rules row).map Prod.fst = selected_rules →
      failed_checks selected_rules (processRow selected_rules row) =
        selected_rules.filter (fun s => checkVal row s)) := by
  have hmemT : ∀ x ∈ complianceTable selected_rules repository_type rows,
      (x.is_compliant = false ↔ 1 ≤ x.rules_broken) := by
    intro x hx
    have hx' : x ∈ (filterByType repository_type rows).map (processRow selected_rules) :=
      (List.perm_insertionSort rowLE _).subset hx
    obtain ⟨row, hrow, rfl⟩ := List.mem_map.mp hx'
    have hnd' := hnd row (mem_of_mem_filterByType hrow)
    simpa [processRow] using is_compliant_false_iff_rules_broken_pos hnd' selected_rules
  have hsorted := List.sorted_insertionSort rowLE
    ((filterByType repository_type rows).map (processRow selected_rules))
  refine ⟨?_, ?_, ?_⟩
  · intro i j hi hj hij hcj
    have hr : rowLE ((complianceTable selected_rules repository_type rows).get ⟨i, hi⟩)
        ((complianceTable selected_rules repository_type rows).get ⟨j, hj⟩) :=
      hsorted.rel_get_of_le hij
    have hj1 := (hmemT _ (List.get_mem _ _ _)).mp hcj
    apply (hmemT _ (List.get_mem _ _ _)).mpr
    rcases hr with hlt | ⟨heq, _⟩
    · omega
    · omega
  · intro i h h'
    apply filter_get_of_pairwise
    apply List.Pairwise.imp_of_mem ?_ hsorted
    intro a b ha hb hab hpb
    have hb' := (hmemT b hb).mp (by simpa using hpb)
    have ha' : 1 ≤ a.rules_broken := by
      rcases hab with hlt | ⟨heq, _⟩
      · omega
      · omega
    simpa using (hmemT a ha).mpr ha'
  · intro row hrow halign
    exact failed_checks_eq_of_aligned (hnd row (mem_of_mem_filterByType hrow)) halign

/-- Witness for C9 on a concrete two-row table. -/
theorem C9_witness :
    (∀ row ∈ [ ({ repository := "a", repository_type := "public", url := "u",
                  checks := [("rule1", true), ("rule2", false)] } : RepoRow),
               { repository := "b", repository_type := "public", url := "v",
                  checks := [("rule1", false), ("rule2", false)] } ],
      (row.checks.map Prod.fst).Nodup) ∧
    (∀ i (h : i < (noncompliantTable ["rule1", "rule2"] "all"
        [ { repository := "a", repository_type := "public", url := "u",
            checks := [("rule1", true), ("rule2", false)] },
          { repository := "b", repository_type := "public", url := "v",
            checks := [("rule1", false), ("rule2", false)] } ]).length)
        (h' : i < (complianceTable ["rule1", "rule2"] "all"
        [ { repository := "a", repository_type := "public", url := "u",
            checks := [("rule1", true), ("rule2", false)] },
          { repository := "b", repository_type := "public", url := "v",
            checks := [("rule1", false), ("rule2", false)] } ]).length),
      (noncompliantTable ["rule1", "rule2"] "all"
        [ { repository := "a", repository_type := "public", url := "u",
            checks := [("rule1", true), ("rule2", false)] },
          { repository := "b", repository_type := "public", url := "v",
            checks := [("rule1", false), ("rule2", false)] } ]).get ⟨i, h⟩ =
      (complianceTable ["rule1", "rule2"] "all"
        [ { repository := "a", repository_type := "public", url := "u",
            checks := [("rule1", true), ("rule2", false)] },
          { repository := "b", repository_type := "public", url := "v",
            checks := [("rule1", false), ("rule2", false)] } ]).get ⟨i, h'⟩) :=
  ⟨by decide,
    (C9_noncompliant_positional_drilldown ["rule1", "rule2"] "all"
      [ { repository := "a", repository_type := "public", url := "u",
          checks := [("rule1", true), ("rule2", false)] },
        { repository := "b", repository_type := "public", url := "v",
          checks := [("rule1", false), ("rule2", false)] } ] (by decide)).2.1⟩

/-!  C7. -/

